import Mathlib

/-!
Shallow embedding of `monitor.py` (RabbitMQ monitoring with Slack alerts).

Conventions of the embedding:
* Python `dict` snapshots from the management API become structures whose
  fields are `Option`-valued; `d.get(key, default)` becomes `field.getD default`.
* `time.time()` timestamps and cooldown arithmetic use `Int` (the claims only
  compare differences against cooldowns); message rates, which Python reads as
  floats and compares exactly against `0`, use `ℚ`.
* The mutable `self.last_alerts` dict becomes an association list threaded
  through each check; `self.connection_failures` is threaded likewise.
* Sending to Slack (`send_slack_alert`) is modelled as a pure function of the
  webhook configuration and the delivery outcome, returning its log lines; it
  takes no cooldown state and returns none, mirroring that the Python function
  never touches `self.last_alerts`.
-/

/-- Python `time.time()` values (seconds). -/
abbrev Time := Int

/-- The `self.last_alerts` dict: alert key to the time it last fired. -/
abbrev LastAlerts := List (String × Time)

/-- Dict lookup, `self.last_alerts[k]` / `k in self.last_alerts`. -/
def lookupA : LastAlerts → String → Option Time
  | [], _ => none
  | (k', t) :: rest, k => if k' = k then some t else lookupA rest k

/-- Dict update, `self.last_alerts[k] = t`. -/
def insertA : LastAlerts → String → Time → LastAlerts
  | [], k, t => [(k, t)]
  | (k', t') :: rest, k, t =>
      if k' = k then (k, t) :: rest else (k', t') :: insertA rest k t

/-- The AlertThresholds dataclass (monitor.py lines 23-32). -/
structure AlertThresholds where
  max_queue_length : Int := 1000
  max_unacknowledged_messages : Int := 500
  min_consumers_per_queue : Int := 1
  max_memory_usage_percent : Int := 80
  max_disk_usage_percent : Int := 85
  processing_halt_threshold : Int := 100
  connection_failure_threshold : Int := 3
deriving DecidableEq, Repr

/-- The configuration fields of `RabbitMQMonitor.__init__` that the health
checks read (thresholds, override list and its parameters, default cooldown). -/
structure MonitorConfig where
  thresholds : AlertThresholds
  long_job_queues : List String
  long_job_threshold : Int
  long_job_cooldown : Int
  default_alert_cooldown : Int
deriving DecidableEq, Repr

/-- Embedding of `RabbitMQMonitor.get_queue_config` (lines 35-39): the pair
of threshold and cooldown for a queue name. -/
def get_queue_config (cfg : MonitorConfig) (queue_name : String) : Int × Int :=
  if queue_name ∈ cfg.long_job_queues then
    (cfg.long_job_threshold, cfg.long_job_cooldown)
  else
    (cfg.thresholds.max_queue_length, cfg.default_alert_cooldown)

/-- Embedding of `RabbitMQMonitor.should_send_alert` (lines 102-110), with the cooldown
already resolved by the caller (the Python default `cooldown=None` resolves to
`self.default_alert_cooldown`; queue checks pass the per-queue cooldown).
Returns the decision together with the updated `last_alerts` dict. -/
def should_send_alert (m : LastAlerts) (alert_key : String) (cd : Int)
    (now : Time) : Bool × LastAlerts :=
  match lookupA m alert_key with
  | some last => if now - last < cd then (false, m) else (true, insertA m alert_key now)
  | none => (true, insertA m alert_key now)

/-- The alert-producing rules hard-coded in the health checks; `connectivity`
is the global rule of `check_connections`, the rest apply to one entity. -/
inductive Rule
  | queueBackup
  | unacked
  | noConsumers
  | processingHalt
  | memory
  | disk
  | nodeDown
  | connectivity
deriving DecidableEq, Repr

/-- The literal prefix that each entity rule's f-string prepends to the entity
name (lines 142, 155, 167, 183, 210, 228, 242); the connectivity rule's key is
the constant `"connection_failures"` (line 254). -/
def rulePrefix : Rule → String
  | .queueBackup => "queue_backup_"
  | .unacked => "unacked_"
  | .noConsumers => "no_consumers_"
  | .processingHalt => "processing_halt_"
  | .memory => "memory_"
  | .disk => "disk_"
  | .nodeDown => "node_down_"
  | .connectivity => "connection_failures"

/-- The alert key built for a rule and an entity name, e.g.
`f"queue_backup_{queue_name}"`. Only the name enters the key, and the
connectivity rule ignores the name entirely. -/
def alertKeyOf (r : Rule) (entity_name : String) : String :=
  match r with
  | .connectivity => "connection_failures"
  | _ => rulePrefix r ++ entity_name

/-- One notification submitted to `send_slack_alert` by a health check; the
rule is recoverable from the message template, so we record it alongside the
alert key and the severity string. -/
structure Alert where
  rule : Rule
  key : String
  severity : String
deriving DecidableEq, Repr

/-- The common shape of every rule evaluation in the health checks:
`if cond: if self.should_send_alert(key, cd): await self.send_slack_alert(..., sev)`.
Returns the updated `last_alerts` and the notifications emitted. -/
def evalRule (m : LastAlerts) (cond : Prop) [Decidable cond] (r : Rule)
    (key : String) (cd : Int) (sev : String) (now : Time) :
    LastAlerts × List Alert :=
  if cond then
    let res := should_send_alert m key cd now
    (res.2, if res.1 then [⟨r, key, sev⟩] else [])
  else (m, [])

/-- The publish-details and deliver-get-details objects, each a dict holding
a rate field. -/
structure RateDetails where
  rate : ℚ
deriving DecidableEq, Repr

/-- The `message_stats` object of a queue snapshot; both detail dicts may be
absent. -/
structure MessageStats where
  publish_details : Option RateDetails
  deliver_get_details : Option RateDetails
deriving DecidableEq, Repr

/-- One queue snapshot as returned by the `queues` endpoint; every field the
code reads with `.get` is optional. -/
structure QueueData where
  name : Option String := none
  vhost : Option String := none
  messages : Option Int := none
  messages_unacknowledged : Option Int := none
  consumers : Option Int := none
  message_stats : Option MessageStats := none
deriving DecidableEq, Repr

/-- The publish rate read from message_stats via two dict .get steps, each
defaulting to empty or 0 (line 178). -/
def publishRate (q : QueueData) : ℚ :=
  match q.message_stats with
  | none => 0
  | some ms =>
    match ms.publish_details with
    | none => 0
    | some d => d.rate

/-- The consume rate read from message_stats via two dict .get steps, each
defaulting to empty or 0 (line 179). -/
def consumeRate (q : QueueData) : ℚ :=
  match q.message_stats with
  | none => 0
  | some ms =>
    match ms.deliver_get_details with
    | none => 0
    | some d => d.rate

/-- The body of the `for queue in queues` loop of
`RabbitMQMonitor.check_queue_health` (lines 134-193): the four queue rules,
evaluated in source order against one snapshot, threading `last_alerts`. -/
def check_queue_single (cfg : MonitorConfig) (now : Time) (m : LastAlerts)
    (q : QueueData) : LastAlerts × List Alert :=
  let queue_name := q.name.getD "unknown"
  let qc := get_queue_config cfg queue_name
  let messages := q.messages.getD 0
  let s1 := evalRule m (messages > qc.1) .queueBackup
      (alertKeyOf .queueBackup queue_name) qc.2 "critical" now
  let unacked := q.messages_unacknowledged.getD 0
  let s2 := evalRule s1.1 (unacked > cfg.thresholds.max_unacknowledged_messages)
      .unacked (alertKeyOf .unacked queue_name) qc.2 "warning" now
  let consumers := q.consumers.getD 0
  let s3 := evalRule s2.1
      (messages > 0 ∧ consumers < cfg.thresholds.min_consumers_per_queue)
      .noConsumers (alertKeyOf .noConsumers queue_name) qc.2 "warning" now
  let s4 := evalRule s3.1
      (messages > cfg.thresholds.processing_halt_threshold ∧
        consumeRate q = 0 ∧ publishRate q > 0)
      .processingHalt (alertKeyOf .processingHalt queue_name) qc.2 "critical" now
  (s4.1, s1.2 ++ s2.2 ++ s3.2 ++ s4.2)

/-- One node snapshot as returned by the `nodes` endpoint. -/
structure NodeData where
  name : Option String := none
  mem_used : Option Int := none
  mem_limit : Option Int := none
  disk_free : Option Int := none
  disk_free_limit : Option Int := none
  running : Option Bool := none
deriving DecidableEq, Repr

/-- The memory percentage of lines 205-207: mem_used divided by mem_limit
times 100 when the limit is positive, else 0, with the dict defaults 0
and 1. -/
def mem_percent (node : NodeData) : ℚ :=
  let mem_used := node.mem_used.getD 0
  let mem_limit := node.mem_limit.getD 1
  if mem_limit > 0 then ((mem_used : ℚ) / (mem_limit : ℚ)) * 100 else 0

/-- The disk usage percentage of line 226, one minus disk_free over
disk_limit, times 100; only meaningful under the guard that both the limit
and the free amount are positive. -/
def disk_used_percent (node : NodeData) : ℚ :=
  let disk_free := node.disk_free.getD 1
  let disk_limit := node.disk_free_limit.getD 0
  (1 - (disk_free : ℚ) / (disk_limit : ℚ)) * 100

/-- The body of the `for node in nodes` loop of
`RabbitMQMonitor.check_node_health` (lines 201-249): memory, disk and
node-down rules in source order; each uses the default cooldown (the Python
calls pass no cooldown argument). -/
def check_node_single (cfg : MonitorConfig) (now : Time) (m : LastAlerts)
    (node : NodeData) : LastAlerts × List Alert :=
  let node_name := node.name.getD "unknown"
  let memp := mem_percent node
  let s1 := evalRule m (memp > (cfg.thresholds.max_memory_usage_percent : ℚ))
      .memory (alertKeyOf .memory node_name) cfg.default_alert_cooldown
      (if memp > 90 then "critical" else "warning") now
  let disk_free := node.disk_free.getD 1
  let disk_limit := node.disk_free_limit.getD 0
  let s2 := evalRule s1.1
      (disk_limit > 0 ∧ disk_free > 0 ∧
        disk_used_percent node > (cfg.thresholds.max_disk_usage_percent : ℚ))
      .disk (alertKeyOf .disk node_name) cfg.default_alert_cooldown "critical" now
  let s3 := evalRule s2.1 (node.running.getD false = false)
      .nodeDown (alertKeyOf .nodeDown node_name) cfg.default_alert_cooldown
      "critical" now
  (s3.1, s1.2 ++ s2.2 ++ s3.2)

/-- Outcome of one HTTP fetch attempt inside `get_api_data`: either a response
arrived (with its status code and, for status 200, a decoded body), or the
request raised (network error / timeout). -/
inductive FetchOutcome (α : Type)
  | response : Nat → α → FetchOutcome α
  | exn : String → FetchOutcome α
deriving DecidableEq, Repr

/-- Embedding of `RabbitMQMonitor.get_api_data` (lines 112-127), as a transition on the
`self.connection_failures` counter: status 200 resets the counter and returns
the body; any other status logs and returns `None` leaving the counter as is;
an exception increments the counter and returns `None`. -/
def get_api_data (α : Type) (failures : Int) (o : FetchOutcome α) :
    Int × Option α :=
  match o with
  | .response status body =>
      if status = 200 then (0, some body) else (failures, none)
  | .exn _ => (failures + 1, none)

/-- Counter value after a sequence of fetches starting from `failures`. -/
def run_fetches (failures : Int) (os : List (FetchOutcome Unit)) : Int :=
  os.foldl (fun f o => (get_api_data Unit f o).1) failures

/-- Embedding of `RabbitMQMonitor.check_connections` (lines 251-262): fire the global
`connection_failures` alert when the counter has reached the threshold,
subject to the default cooldown (no cooldown argument is passed). -/
def check_connections (cfg : MonitorConfig) (now : Time) (failures : Int)
    (m : LastAlerts) : LastAlerts × List Alert :=
  if failures ≥ cfg.thresholds.connection_failure_threshold then
    let res := should_send_alert m "connection_failures" cfg.default_alert_cooldown now
    (res.2, if res.1 then [⟨.connectivity, "connection_failures", "critical"⟩] else [])
  else (m, [])

/-- Outcome of the one HTTP POST inside `send_slack_alert`. -/
inductive DeliveryOutcome
  | status : Nat → DeliveryOutcome
  | exn : String → DeliveryOutcome
deriving DecidableEq, Repr

/-- Embedding of `RabbitMQMonitor.send_slack_alert` (lines 68-100) reduced to its
observable effect, the log line it emits: skipped when no webhook is set,
otherwise success, failure or exception logging. It neither receives nor
returns any cooldown state. -/
def send_slack_alert (webhook : Option String) (message : String)
    (d : DeliveryOutcome) : List String :=
  match webhook with
  | none => ["No Slack webhook URL configured, skipping alert"]
  | some _ =>
    match d with
    | .status s =>
        if s = 200 then ["Slack alert sent: " ++ message]
        else ["Failed to send Slack alert"]
    | .exn e => ["Error sending Slack alert: " ++ e]

/-- The fire-then-deliver step around one rule whose condition already held:
the cooldown check decides, and on `true` the notification is delivered with
some outcome `d`; the resulting cooldown state and log lines. -/
def alert_step (m : LastAlerts) (key : String) (cd : Int) (now : Time)
    (webhook : Option String) (message : String) (d : DeliveryOutcome) :
    LastAlerts × List String :=
  let res := should_send_alert m key cd now
  (res.2, if res.1 then send_slack_alert webhook message d else [])

/-- What one execution of the `asyncio.gather` of the three checks can do:
starting from a cooldown state, it leaves behind a (possibly mutated) state
and either the `(message, severity)` notifications it sent, or the message of
the exception it raised. -/
abbrev CycleBody := LastAlerts → LastAlerts × Except String (List (String × String))

/-- Embedding of `RabbitMQMonitor.run_health_check` (lines 264-282): run the cycle body
inside `try`; on an exception, catch it at the cycle boundary and send one
monitoring-error notification with severity `"critical"` (no cooldown check
guards it). The function is total: no exception escapes it. -/
def run_health_check (cycle : CycleBody) (m : LastAlerts) :
    LastAlerts × List (String × String) :=
  match cycle m with
  | (m', .ok sent) => (m', sent)
  | (m', .error e) =>
      (m', [("MONITORING ERROR: Health check failed: " ++ e, "critical")])

/-- The `while True` loop of `RabbitMQMonitor.start_monitoring`
(lines 297-299), observed for a finite prefix of cycles: each cycle's body is
run through `run_health_check` and contributes its batch of notifications. -/
def start_monitoring (cycles : List CycleBody) (m : LastAlerts) :
    LastAlerts × List (List (String × String)) :=
  match cycles with
  | [] => (m, [])
  | c :: rest =>
    let r := run_health_check c m
    let rest' := start_monitoring rest r.1
    (rest'.1, r.2 :: rest'.2)

/-- Repeated `should_send_alert` calls on one key at successive times,
collecting the decisions (the per-key view of repeated evaluation cycles in
which the rule's predicate stays true). -/
def runChecks (m : LastAlerts) (key : String) (cd : Int) :
    List Time → LastAlerts × List Bool
  | [] => (m, [])
  | t :: ts =>
    let r := should_send_alert m key cd t
    let rest := runChecks r.2 key cd ts
    (rest.1, r.1 :: rest.2)

/-! ### Basic lemmas about the `last_alerts` dict and the cooldown check -/

lemma lookupA_insertA_self (m : LastAlerts) (k : String) (t : Time) :
    lookupA (insertA m k t) k = some t := by
  induction m with
  | nil => simp [insertA, lookupA]
  | cons p rest ih =>
    obtain ⟨k', t'⟩ := p
    by_cases h : k' = k
    · simp [insertA, lookupA, h]
    · simp [insertA, lookupA, h, ih]

lemma lookupA_insertA_ne (m : LastAlerts) (k k' : String) (t : Time)
    (h : k' ≠ k) : lookupA (insertA m k t) k' = lookupA m k' := by
  induction m with
  | nil => simp [insertA, lookupA, Ne.symm h]
  | cons p rest ih =>
    obtain ⟨k₀, t₀⟩ := p
    by_cases h0 : k₀ = k
    · subst h0
      simp [insertA, lookupA, Ne.symm h]
    · simp only [insertA, if_neg h0, lookupA]
      by_cases h1 : k₀ = k'
      · simp [h1]
      · simp [h1, ih]

lemma ssa_fst_iff (m : LastAlerts) (k : String) (cd : Int) (now : Time) :
    (should_send_alert m k cd now).1 = true ↔
      ∀ t ∈ lookupA m k, cd ≤ now - t := by
  unfold should_send_alert
  cases h : lookupA m k with
  | none => simp
  | some last =>
    by_cases hlt : now - last < cd
    · simp [hlt, not_le.mpr hlt]
    · simp [hlt, not_lt.mp hlt]

lemma ssa_snd_of_false (m : LastAlerts) (k : String) (cd : Int) (now : Time)
    (h : (should_send_alert m k cd now).1 = false) :
    (should_send_alert m k cd now).2 = m := by
  unfold should_send_alert at *
  cases hL : lookupA m k with
  | none => simp [hL] at h
  | some last =>
    by_cases hlt : now - last < cd
    · simp [hL, hlt]
    · simp [hL, hlt] at h

lemma ssa_snd_of_true (m : LastAlerts) (k : String) (cd : Int) (now : Time)
    (h : (should_send_alert m k cd now).1 = true) :
    (should_send_alert m k cd now).2 = insertA m k now := by
  unfold should_send_alert at *
  cases hL : lookupA m k with
  | none => simp [hL]
  | some last =>
    by_cases hlt : now - last < cd
    · simp [hL, hlt] at h
    · simp [hL, hlt]

lemma ssa_lookup_self_of_true (m : LastAlerts) (k : String) (cd : Int)
    (now : Time) (h : (should_send_alert m k cd now).1 = true) :
    lookupA (should_send_alert m k cd now).2 k = some now := by
  rw [ssa_snd_of_true m k cd now h, lookupA_insertA_self]

lemma ssa_lookup_ne (m : LastAlerts) (k k' : String) (cd : Int) (now : Time)
    (h : k' ≠ k) :
    lookupA (should_send_alert m k cd now).2 k' = lookupA m k' := by
  unfold should_send_alert
  cases hL : lookupA m k with
  | none => simp [lookupA_insertA_ne m k k' now h]
  | some last =>
    by_cases hlt : now - last < cd
    · simp [hlt]
    · simp [hlt, lookupA_insertA_ne m k k' now h]

lemma ssa_fst_congr (m1 m2 : LastAlerts) (k : String) (cd : Int) (now : Time)
    (h : lookupA m1 k = lookupA m2 k) :
    (should_send_alert m1 k cd now).1 = (should_send_alert m2 k cd now).1 := by
  unfold should_send_alert
  rw [h]
  cases lookupA m2 k with
  | none => rfl
  | some last =>
    by_cases hlt : now - last < cd <;> simp [hlt]

lemma ssa_fst_of_none (m : LastAlerts) (k : String) (cd : Int) (now : Time)
    (h : lookupA m k = none) : (should_send_alert m k cd now).1 = true := by
  unfold should_send_alert
  simp [h]

lemma ssa_fst_of_some (m : LastAlerts) (k : String) (cd : Int) (now t0 : Time)
    (h : lookupA m k = some t0) :
    (should_send_alert m k cd now).1 = true ↔ cd ≤ now - t0 := by
  rw [ssa_fst_iff, h]
  simp

/-! ### Lemmas about one rule evaluation step -/

lemma evalRule_fst (m : LastAlerts) (cond : Prop) [Decidable cond] (r : Rule)
    (key : String) (cd : Int) (sev : String) (now : Time) :
    (evalRule m cond r key cd sev now).1 =
      if cond then (should_send_alert m key cd now).2 else m := by
  unfold evalRule
  split <;> rfl

lemma evalRule_snd (m : LastAlerts) (cond : Prop) [Decidable cond] (r : Rule)
    (key : String) (cd : Int) (sev : String) (now : Time) :
    (evalRule m cond r key cd sev now).2 =
      if cond then
        (if (should_send_alert m key cd now).1 then [⟨r, key, sev⟩] else [])
      else [] := by
  unfold evalRule
  split <;> rfl

lemma evalRule_mem (m : LastAlerts) (cond : Prop) [Decidable cond] (r : Rule)
    (key : String) (cd : Int) (sev : String) (now : Time) (a : Alert)
    (h : a ∈ (evalRule m cond r key cd sev now).2) :
    a = ⟨r, key, sev⟩ ∧ cond ∧ (should_send_alert m key cd now).1 = true := by
  rw [evalRule_snd] at h
  by_cases hc : cond
  · rw [if_pos hc] at h
    by_cases hf : (should_send_alert m key cd now).1 = true
    · rw [if_pos hf] at h
      simp at h
      exact ⟨h, hc, hf⟩
    · simp [hf] at h
  · simp [hc] at h

lemma evalRule_exists_iff (m : LastAlerts) (cond : Prop) [Decidable cond]
    (r : Rule) (key : String) (cd : Int) (sev : String) (now : Time) :
    (∃ a ∈ (evalRule m cond r key cd sev now).2, a.rule = r) ↔
      (cond ∧ (should_send_alert m key cd now).1 = true) := by
  constructor
  · rintro ⟨a, ha, -⟩
    exact (evalRule_mem m cond r key cd sev now a ha).2
  · rintro ⟨hc, hf⟩
    refine ⟨⟨r, key, sev⟩, ?_, rfl⟩
    rw [evalRule_snd, if_pos hc, hf]
    simp

lemma evalRule_not_rule (m : LastAlerts) (cond : Prop) [Decidable cond]
    (r r' : Rule) (key : String) (cd : Int) (sev : String) (now : Time)
    (hr : r' ≠ r) :
    ¬ ∃ a ∈ (evalRule m cond r key cd sev now).2, a.rule = r' := by
  rintro ⟨a, ha, hrule⟩
  have := (evalRule_mem m cond r key cd sev now a ha).1
  rw [this] at hrule
  exact hr hrule.symm

lemma evalRule_lookup_ne (m : LastAlerts) (cond : Prop) [Decidable cond]
    (r : Rule) (key : String) (cd : Int) (sev : String) (now : Time)
    (k' : String) (h : k' ≠ key) :
    lookupA (evalRule m cond r key cd sev now).1 k' = lookupA m k' := by
  rw [evalRule_fst]
  split
  · exact ssa_lookup_ne m key k' cd now h
  · rfl

/-! ### Alert keys: cancellation and prefix disjointness -/

lemma string_append_cancel_left {p n1 n2 : String} (h : p ++ n1 = p ++ n2) :
    n1 = n2 := by
  apply String.ext
  have hd : p.data ++ n1.data = p.data ++ n2.data := congrArg String.data h
  exact List.append_cancel_left hd

lemma string_prefix_clash {p1 p2 n1 n2 : String}
    (hne : p1.data.take (min p1.data.length p2.data.length) ≠
           p2.data.take (min p1.data.length p2.data.length))
    (h : p1 ++ n1 = p2 ++ n2) : False := by
  apply hne
  have hd : p1.data ++ n1.data = p2.data ++ n2.data := congrArg String.data h
  have h1 : (p1.data ++ n1.data).take (min p1.data.length p2.data.length) =
      p1.data.take (min p1.data.length p2.data.length) :=
    List.take_append_of_le_length (min_le_left _ _)
  have h2 : (p2.data ++ n2.data).take (min p1.data.length p2.data.length) =
      p2.data.take (min p1.data.length p2.data.length) :=
    List.take_append_of_le_length (min_le_right _ _)
  rw [← h1, hd, h2]

lemma alertKeyOf_entity_inj (r1 r2 : Rule) (n1 n2 : String)
    (h1 : r1 ≠ .connectivity) (h2 : r2 ≠ .connectivity) :
    alertKeyOf r1 n1 = alertKeyOf r2 n2 ↔ (r1 = r2 ∧ n1 = n2) := by
  constructor
  · intro h
    cases r1 <;> cases r2 <;>
      simp only [alertKeyOf, rulePrefix] at h <;>
      first
      | exact absurd rfl h1
      | exact absurd rfl h2
      | exact ⟨rfl, string_append_cancel_left h⟩
      | exact absurd h (fun hh => string_prefix_clash (by decide) hh)
  · rintro ⟨rfl, rfl⟩
    rfl

lemma alertKeyOf_ne (r1 r2 : Rule) (n : String) (h1 : r1 ≠ .connectivity)
    (h2 : r2 ≠ .connectivity) (hr : r1 ≠ r2) :
    alertKeyOf r1 n ≠ alertKeyOf r2 n :=
  fun h => hr ((alertKeyOf_entity_inj r1 r2 n n h1 h2).mp h).1

/-! ### Which rules fire in one queue evaluation -/

lemma exists_mem_append {α : Type} {p : α → Prop} {l1 l2 : List α} :
    (∃ a ∈ l1 ++ l2, p a) ↔ (∃ a ∈ l1, p a) ∨ (∃ a ∈ l2, p a) := by
  simp [List.mem_append, or_and_right, exists_or]

lemma queue_backup_fires_iff (cfg : MonitorConfig) (now : Time) (m : LastAlerts)
    (q : QueueData) :
    (∃ a ∈ (check_queue_single cfg now m q).2, a.rule = .queueBackup) ↔
      (q.messages.getD 0 > (get_queue_config cfg (q.name.getD "unknown")).1 ∧
       (should_send_alert m (alertKeyOf .queueBackup (q.name.getD "unknown"))
          (get_queue_config cfg (q.name.getD "unknown")).2 now).1 = true) := by
  dsimp only [check_queue_single]
  simp only [exists_mem_append, or_assoc]
  constructor
  · rintro (h | h | h | h)
    · exact (evalRule_exists_iff _ _ _ _ _ _ _).mp h
    · exact absurd h (evalRule_not_rule _ _ _ _ _ _ _ _ (by decide))
    · exact absurd h (evalRule_not_rule _ _ _ _ _ _ _ _ (by decide))
    · exact absurd h (evalRule_not_rule _ _ _ _ _ _ _ _ (by decide))
  · intro h
    exact Or.inl ((evalRule_exists_iff _ _ _ _ _ _ _).mpr h)

lemma queue_unacked_fires_iff (cfg : MonitorConfig) (now : Time) (m : LastAlerts)
    (q : QueueData) :
    (∃ a ∈ (check_queue_single cfg now m q).2, a.rule = .unacked) ↔
      (q.messages_unacknowledged.getD 0 > cfg.thresholds.max_unacknowledged_messages ∧
       (should_send_alert m (alertKeyOf .unacked (q.name.getD "unknown"))
          (get_queue_config cfg (q.name.getD "unknown")).2 now).1 = true) := by
  dsimp only [check_queue_single]
  simp only [exists_mem_append, or_assoc]
  rw [evalRule_exists_iff]
  rw [ssa_fst_congr _ m _ _ now (evalRule_lookup_ne _ _ _ _ _ _ _ _
    (alertKeyOf_ne .unacked .queueBackup (q.name.getD "unknown")
      (by decide) (by decide) (by decide)))]
  constructor
  · rintro (h | h | h | h)
    · exact absurd h (evalRule_not_rule _ _ _ _ _ _ _ _ (by decide))
    · exact h
    · exact absurd h (evalRule_not_rule _ _ _ _ _ _ _ _ (by decide))
    · exact absurd h (evalRule_not_rule _ _ _ _ _ _ _ _ (by decide))
  · intro h
    exact Or.inr (Or.inl h)

lemma queue_no_consumers_fires_iff (cfg : MonitorConfig) (now : Time)
    (m : LastAlerts) (q : QueueData) :
    (∃ a ∈ (check_queue_single cfg now m q).2, a.rule = .noConsumers) ↔
      ((q.messages.getD 0 > 0 ∧
        q.consumers.getD 0 < cfg.thresholds.min_consumers_per_queue) ∧
       (should_send_alert m (alertKeyOf .noConsumers (q.name.getD "unknown"))
          (get_queue_config cfg (q.name.getD "unknown")).2 now).1 = true) := by
  dsimp only [check_queue_single]
  simp only [exists_mem_append, or_assoc]
  rw [evalRule_exists_iff]
  rw [ssa_fst_congr _ m _ _ now ((evalRule_lookup_ne _ _ _ _ _ _ _ _
      (alertKeyOf_ne .noConsumers .unacked (q.name.getD "unknown")
        (by decide) (by decide) (by decide))).trans
    (evalRule_lookup_ne _ _ _ _ _ _ _ _
      (alertKeyOf_ne .noConsumers .queueBackup (q.name.getD "unknown")
        (by decide) (by decide) (by decide))))]
  constructor
  · rintro (h | h | h | h)
    · exact absurd h (evalRule_not_rule _ _ _ _ _ _ _ _ (by decide))
    · exact absurd h (evalRule_not_rule _ _ _ _ _ _ _ _ (by decide))
    · exact h
    · exact absurd h (evalRule_not_rule _ _ _ _ _ _ _ _ (by decide))
  · intro h
    exact Or.inr (Or.inr (Or.inl h))

lemma queue_halt_fires_iff (cfg : MonitorConfig) (now : Time) (m : LastAlerts)
    (q : QueueData) :
    (∃ a ∈ (check_queue_single cfg now m q).2, a.rule = .processingHalt) ↔
      ((q.messages.getD 0 > cfg.thresholds.processing_halt_threshold ∧
        consumeRate q = 0 ∧ publishRate q > 0) ∧
       (should_send_alert m (alertKeyOf .processingHalt (q.name.getD "unknown"))
          (get_queue_config cfg (q.name.getD "unknown")).2 now).1 = true) := by
  dsimp only [check_queue_single]
  simp only [exists_mem_append, or_assoc]
  rw [evalRule_exists_iff]
  rw [ssa_fst_congr _ m _ _ now ((evalRule_lookup_ne _ _ _ _ _ _ _ _
      (alertKeyOf_ne .processingHalt .noConsumers (q.name.getD "unknown")
        (by decide) (by decide) (by decide))).trans
    ((evalRule_lookup_ne _ _ _ _ _ _ _ _
      (alertKeyOf_ne .processingHalt .unacked (q.name.getD "unknown")
        (by decide) (by decide) (by decide))).trans
    (evalRule_lookup_ne _ _ _ _ _ _ _ _
      (alertKeyOf_ne .processingHalt .queueBackup (q.name.getD "unknown")
        (by decide) (by decide) (by decide)))))]
  constructor
  · rintro (h | h | h | h)
    · exact absurd h (evalRule_not_rule _ _ _ _ _ _ _ _ (by decide))
    · exact absurd h (evalRule_not_rule _ _ _ _ _ _ _ _ (by decide))
    · exact absurd h (evalRule_not_rule _ _ _ _ _ _ _ _ (by decide))
    · exact h
  · intro h
    exact Or.inr (Or.inr (Or.inr h))

/-! ### Which rules fire in one node evaluation -/

lemma node_memory_fires_iff (cfg : MonitorConfig) (now : Time) (m : LastAlerts)
    (node : NodeData) :
    (∃ a ∈ (check_node_single cfg now m node).2, a.rule = .memory) ↔
      (mem_percent node > (cfg.thresholds.max_memory_usage_percent : ℚ) ∧
       (should_send_alert m (alertKeyOf .memory (node.name.getD "unknown"))
          cfg.default_alert_cooldown now).1 = true) := by
  dsimp only [check_node_single]
  simp only [exists_mem_append, or_assoc]
  constructor
  · rintro (h | h | h)
    · exact (evalRule_exists_iff _ _ _ _ _ _ _).mp h
    · exact absurd h (evalRule_not_rule _ _ _ _ _ _ _ _ (by decide))
    · exact absurd h (evalRule_not_rule _ _ _ _ _ _ _ _ (by decide))
  · intro h
    exact Or.inl ((evalRule_exists_iff _ _ _ _ _ _ _).mpr h)

lemma node_memory_severity (cfg : MonitorConfig) (now : Time) (m : LastAlerts)
    (node : NodeData) (a : Alert)
    (ha : a ∈ (check_node_single cfg now m node).2) (hr : a.rule = .memory) :
    a.severity = (if mem_percent node > 90 then "critical" else "warning") := by
  dsimp only [check_node_single] at ha
  rw [List.mem_append] at ha
  rcases ha with ha | ha
  · rw [List.mem_append] at ha
    rcases ha with ha | ha
    · rw [(evalRule_mem _ _ _ _ _ _ _ _ ha).1]
    · have := (evalRule_mem _ _ _ _ _ _ _ _ ha).1
      rw [this] at hr
      exact Rule.noConfusion hr
  · have := (evalRule_mem _ _ _ _ _ _ _ _ ha).1
    rw [this] at hr
    exact Rule.noConfusion hr

/-! ### Repeated cooldown checks and the monitoring loop -/

lemma runChecks_all_false (m : LastAlerts) (k : String) (cd : Int) (t0 : Time)
    (ts : List Time) (hm : lookupA m k = some t0)
    (h : ∀ t ∈ ts, t - t0 < cd) :
    runChecks m k cd ts = (m, ts.map fun _ => false) := by
  induction ts with
  | nil => simp [runChecks]
  | cons t rest ih =>
    have hssa : should_send_alert m k cd t = (false, m) := by
      unfold should_send_alert
      rw [hm]
      simp [h t (by simp)]
    have hrest : ∀ t' ∈ rest, t' - t0 < cd := fun t' ht' => h t' (by simp [ht'])
    simp [runChecks, hssa, ih hrest]

lemma runChecks_append (m : LastAlerts) (k : String) (cd : Int)
    (ts1 ts2 : List Time) :
    runChecks m k cd (ts1 ++ ts2) =
      ((runChecks (runChecks m k cd ts1).1 k cd ts2).1,
       (runChecks m k cd ts1).2 ++ (runChecks (runChecks m k cd ts1).1 k cd ts2).2) := by
  induction ts1 generalizing m with
  | nil => simp [runChecks]
  | cons t rest ih => simp [runChecks, ih]

lemma start_monitoring_length (cycles : List CycleBody) (m : LastAlerts) :
    (start_monitoring cycles m).2.length = cycles.length := by
  induction cycles generalizing m with
  | nil => rfl
  | cons c rest ih => simp [start_monitoring, ih]

/-! ### Concrete example values used by witnesses and counterexamples -/

/-- A configuration with the dataclass defaults and an empty override list. -/
def cfgEx : MonitorConfig :=
  { thresholds := {}, long_job_queues := [], long_job_threshold := 1000000,
    long_job_cooldown := 10800, default_alert_cooldown := 1800 }

/-- A configuration whose override list holds the queue `"jobs-long"`. -/
def cfgOver : MonitorConfig :=
  { thresholds := {}, long_job_queues := ["jobs-long"],
    long_job_threshold := 1000000, long_job_cooldown := 10800,
    default_alert_cooldown := 1800 }

/-- A queue named `"jobs"` in vhost `"/a"`, over the backup threshold. -/
def qJobsA : QueueData :=
  { name := some "jobs", vhost := some "/a", messages := some 2000 }

/-- The same queue name in a different vhost. -/
def qJobsB : QueueData :=
  { name := some "jobs", vhost := some "/b", messages := some 2000 }

/-- A queue piling up messages with publishing but no consumption. -/
def qHaltEx : QueueData :=
  { name := some "halted", messages := some 500, consumers := some 1,
    message_stats := some ⟨some ⟨1⟩, some ⟨0⟩⟩ }

/-- A queue in the override list of `cfgOver`. -/
def qLongEx : QueueData :=
  { name := some "jobs-long", messages := some 42 }

/-- A node at 95 percent memory. -/
def nodeMemEx : NodeData :=
  { name := some "rabbit@host", mem_used := some 95, mem_limit := some 100,
    running := some true }

/-- A node snapshot with no `mem_limit` field at all. -/
def nodeNoLimitEx : NodeData :=
  { name := some "rabbit@bare", mem_used := some 5, running := some true }

/-! ### The claims -/

/-- C1: `should_send_alert(key, cd)` at time `now` returns true — and then
records `now` for the key — iff no record exists for the key or `now` minus
the last recorded time is at least `cd`; a denied call records nothing.
Consequently, on a key first granted at `t0`, every later check strictly
within `cd` seconds of `t0` is denied, and the first check at or after `cd`
seconds is granted again. -/
theorem cooldown_check_spec (m : LastAlerts) (k : String) (cd : Int)
    (t0 tlast : Time) (mids : List Time)
    (h0 : lookupA m k = none)
    (hmid : ∀ t ∈ mids, t - t0 < cd)
    (hlast : cd ≤ tlast - t0) :
    (∀ (m' : LastAlerts) (now : Time),
        ((should_send_alert m' k cd now).1 = true ↔
          ∀ t ∈ lookupA m' k, cd ≤ now - t) ∧
        ((should_send_alert m' k cd now).1 = true →
          lookupA (should_send_alert m' k cd now).2 k = some now) ∧
        ((should_send_alert m' k cd now).1 = false →
          (should_send_alert m' k cd now).2 = m')) ∧
    (runChecks m k cd (t0 :: (mids ++ [tlast]))).2 =
      true :: ((mids.map fun _ => false) ++ [true]) := by
  constructor
  · intro m' now
    exact ⟨ssa_fst_iff m' k cd now, ssa_lookup_self_of_true m' k cd now,
      ssa_snd_of_false m' k cd now⟩
  · have h1 : should_send_alert m k cd t0 = (true, insertA m k t0) := by
      unfold should_send_alert
      rw [h0]
    have hl1 : lookupA (insertA m k t0) k = some t0 := lookupA_insertA_self m k t0
    have hmids := runChecks_all_false (insertA m k t0) k cd t0 mids hl1 hmid
    have hfin : (should_send_alert (insertA m k t0) k cd tlast).1 = true := by
      rw [ssa_fst_of_some _ k cd tlast t0 hl1]
      exact hlast
    simp only [runChecks, h1]
    rw [runChecks_append, hmids]
    simp [runChecks, hfin]

/-- Witness for `cooldown_check_spec`: starting from an empty store, the check
on one key at time 0 is granted, the checks at 100 and 1799 (strictly inside
the 1800-second cooldown) are denied, and the check at 1800 is granted. -/
theorem cooldown_check_spec_witness :
    (runChecks [] "queue_backup_jobs" 1800 (0 :: ([100, 1799] ++ [1800]))).2 =
      true :: (([100, 1799].map fun _ => false) ++ [true]) :=
  (cooldown_check_spec [] "queue_backup_jobs" 1800 0 1800 [100, 1799]
    (by decide) (by decide) (by decide)).2

/-- C2 counterexample: alert keys ignore the vhost. The queues `qJobsA` and
`qJobsB` share a name but live in different vhosts, yet the queue-backup rule
derives the same alert key for both; operationally, after `qJobsA` fires the
backup alert, evaluating `qJobsB` in the resulting state is suppressed by
`qJobsA`'s cooldown record even though it is a different entity. -/
theorem alertKey_vhost_collision :
    qJobsA.vhost ≠ qJobsB.vhost ∧
    alertKeyOf .queueBackup (qJobsA.name.getD "unknown") =
      alertKeyOf .queueBackup (qJobsB.name.getD "unknown") ∧
    (∃ a ∈ (check_queue_single cfgEx 0 [] qJobsA).2, a.rule = .queueBackup) ∧
    ¬ (∃ a ∈ (check_queue_single cfgEx 0
        (check_queue_single cfgEx 0 [] qJobsA).1 qJobsB).2,
        a.rule = .queueBackup) := by
  decide

/-- C2 (amended): for the entity-scoped rules, the alert key is a pure
function of the rule and the entity *name* alone: two (rule, name) pairs
yield the same key iff both the rule and the name agree — so keys are stable
across cycles and distinct for differing rules or names, but the vhost is not
part of the identity and same-named queues in different vhosts share keys. -/
theorem alertKey_rule_name_characterization (r1 r2 : Rule) (n1 n2 : String)
    (h1 : r1 ≠ .connectivity) (h2 : r2 ≠ .connectivity) :
    (alertKeyOf r1 n1 = alertKeyOf r2 n2 ↔ (r1 = r2 ∧ n1 = n2)) ∧
    (∀ q1 q2 : QueueData, q1.name = q2.name →
        alertKeyOf r1 (q1.name.getD "unknown") =
          alertKeyOf r1 (q2.name.getD "unknown")) :=
  ⟨alertKeyOf_entity_inj r1 r2 n1 n2 h1 h2, fun _ _ hq => by rw [hq]⟩

/-- Witness for `alertKey_rule_name_characterization`: the backup and unacked
rules on the same queue name get distinct keys. -/
theorem alertKey_rule_name_characterization_witness :
    alertKeyOf .queueBackup "jobs" = alertKeyOf .unacked "jobs" ↔
      (Rule.queueBackup = Rule.unacked ∧ "jobs" = "jobs") :=
  (alertKey_rule_name_characterization .queueBackup .unacked "jobs" "jobs"
    (by decide) (by decide)).1

/-- The connectivity check has exactly the shape of one rule evaluation. -/
lemma check_connections_eq_evalRule (cfg : MonitorConfig) (now : Time)
    (failures : Int) (m : LastAlerts) :
    check_connections cfg now failures m =
      evalRule m (failures ≥ cfg.thresholds.connection_failure_threshold)
        .connectivity "connection_failures" cfg.default_alert_cooldown
        "critical" now := rfl

/-- C3 counterexample: an HTTP 500 response is a failed fetch (it yields no
data), yet `get_api_data` leaves the failure counter unchanged at 0 instead
of incrementing it to 1 — only exceptions increment the counter. -/
theorem fetch_failure_counter_counterexample :
    (get_api_data Unit 0 (.response 500 ())).2 = none ∧
    (get_api_data Unit 0 (.response 500 ())).1 = 0 ∧
    (get_api_data Unit 0 (.response 500 ())).1 ≠ 0 + 1 := by
  decide

/-- C3 (amended): a network error or timeout (an exception) increments the
connection-failure counter by exactly one; a non-success HTTP status makes
the fetch fail (returns no data) but leaves the counter unchanged; a
successful fetch resets the counter to zero; the connectivity alert fires
exactly when the counter is at least the configured threshold and the key's
cooldown allows it; and after a reset, a new run of three exceptions brings
the counter back to the default threshold of 3. -/
theorem fetch_failure_counter_spec (α : Type) (failures : Int) (s : String)
    (st : Nat) (body : α) (hst : st ≠ 200) (cfg : MonitorConfig) (now : Time)
    (m : LastAlerts) :
    get_api_data α failures (.exn s) = (failures + 1, none) ∧
    get_api_data α failures (.response 200 body) = (0, some body) ∧
    get_api_data α failures (.response st body) = (failures, none) ∧
    ((∃ a ∈ (check_connections cfg now failures m).2, a.rule = .connectivity) ↔
      (failures ≥ cfg.thresholds.connection_failure_threshold ∧
        (should_send_alert m "connection_failures"
          cfg.default_alert_cooldown now).1 = true)) ∧
    run_fetches 0 [.exn "e", .exn "e", .exn "e"] = 3 ∧
    run_fetches 3 [.response 200 (), .exn "e", .exn "e", .exn "e"] = 3 := by
  refine ⟨rfl, rfl, ?_, ?_, by decide, by decide⟩
  · simp [get_api_data, hst]
  · rw [check_connections_eq_evalRule]
    exact evalRule_exists_iff _ _ _ _ _ _ _

/-- Witness for `fetch_failure_counter_spec`: a 500 response leaves a counter
of 7 untouched. -/
theorem fetch_failure_counter_spec_witness :
    get_api_data Unit 7 (.response 500 ()) = (7, none) :=
  (fetch_failure_counter_spec Unit 7 "x" 500 () (by decide) cfgEx 0 []).2.2.1

/-- C4: the queue-backup rule's effective parameters come as a pair from
`get_queue_config`: a queue in the override list gets the override threshold
together with the override cooldown, any other queue gets the default
threshold together with the default cooldown, never a mixture; and the backup
rule really gates on both components of that pair — with a prior record at
`t0`, it fires iff the messages exceed the pair's threshold and the pair's
cooldown has elapsed. -/
theorem queue_config_pair_spec (cfg : MonitorConfig) (qname : String) :
    (qname ∈ cfg.long_job_queues →
      get_queue_config cfg qname =
        (cfg.long_job_threshold, cfg.long_job_cooldown)) ∧
    (qname ∉ cfg.long_job_queues →
      get_queue_config cfg qname =
        (cfg.thresholds.max_queue_length, cfg.default_alert_cooldown)) ∧
    (∀ (q : QueueData) (m : LastAlerts) (now t0 : Time),
      q.name = some qname →
      lookupA m (alertKeyOf .queueBackup qname) = some t0 →
      ((∃ a ∈ (check_queue_single cfg now m q).2, a.rule = .queueBackup) ↔
        (q.messages.getD 0 > (get_queue_config cfg qname).1 ∧
          (get_queue_config cfg qname).2 ≤ now - t0))) := by
  refine ⟨fun h => by simp [get_queue_config, h],
    fun h => by simp [get_queue_config, h], ?_⟩
  intro q m now t0 hn hm
  have hgq : q.name.getD "unknown" = qname := by rw [hn]; rfl
  rw [queue_backup_fires_iff, hgq, ssa_fst_of_some m _ _ now t0 hm]

/-- Witness for `queue_config_pair_spec`: under `cfgOver`, the overridden
queue gets the override pair and another queue gets the default pair. -/
theorem queue_config_pair_spec_witness :
    get_queue_config cfgOver "jobs-long" =
      (cfgOver.long_job_threshold, cfgOver.long_job_cooldown) ∧
    get_queue_config cfgOver "other" =
      (cfgOver.thresholds.max_queue_length, cfgOver.default_alert_cooldown) :=
  ⟨(queue_config_pair_spec cfgOver "jobs-long").1 (by decide),
   (queue_config_pair_spec cfgOver "other").2.1 (by decide)⟩

/-- C5: the last-alert map is written only by a granting cooldown check: a
check that returns false leaves the map unchanged, any check leaves every
other key's entry unchanged, a granting check records `now` under its own
key, and the state after the fire-and-deliver step equals the state left by
the cooldown check itself, identical under every delivery outcome. -/
theorem cooldown_state_frame_spec (m : LastAlerts) (k : String) (cd : Int)
    (now : Time) (webhook : Option String) (message : String)
    (d d' : DeliveryOutcome) :
    ((should_send_alert m k cd now).1 = false →
      (should_send_alert m k cd now).2 = m) ∧
    (∀ k', k' ≠ k →
      lookupA (should_send_alert m k cd now).2 k' = lookupA m k') ∧
    ((should_send_alert m k cd now).1 = true →
      lookupA (should_send_alert m k cd now).2 k = some now) ∧
    (alert_step m k cd now webhook message d).1 =
      (should_send_alert m k cd now).2 ∧
    (alert_step m k cd now webhook message d).1 =
      (alert_step m k cd now webhook message d').1 :=
  ⟨ssa_snd_of_false m k cd now,
   fun k' h => ssa_lookup_ne m k k' cd now h,
   ssa_lookup_self_of_true m k cd now,
   rfl, rfl⟩

/-- Witness for `cooldown_state_frame_spec`: a denied check (7 seconds after
a record, 10-second cooldown) leaves the map unchanged, and other keys are
untouched. -/
theorem cooldown_state_frame_spec_witness :
    (should_send_alert [("a", 5)] "a" 10 7).2 = [("a", 5)] ∧
    lookupA (should_send_alert [("a", 5)] "a" 10 7).2 "b" =
      lookupA [("a", 5)] "b" :=
  ⟨(cooldown_state_frame_spec [("a", 5)] "a" 10 7 none "x"
      (.status 200) (.status 500)).1 (by decide),
   (cooldown_state_frame_spec [("a", 5)] "a" 10 7 none "x"
      (.status 200) (.status 500)).2.1 "b" (by decide)⟩

/-- C6: with a fresh key, the processing-halt rule fires iff
`messages > halt_threshold AND consume_rate == 0 AND publish_rate > 0`
(so flipping any one conjunct to false suppresses it); a snapshot with no
`message_stats` evaluates both rates as 0 — hence the halt rule as
non-firing, with no possibility of an error since evaluation is total —
while the three other queue rules fire exactly as they would on the intact
snapshot. -/
theorem processing_halt_spec (cfg : MonitorConfig) (now : Time)
    (m : LastAlerts) (q : QueueData)
    (hfresh : lookupA m (alertKeyOf .processingHalt (q.name.getD "unknown")) =
      none) :
    ((∃ a ∈ (check_queue_single cfg now m q).2, a.rule = .processingHalt) ↔
      (q.messages.getD 0 > cfg.thresholds.processing_halt_threshold ∧
        consumeRate q = 0 ∧ publishRate q > 0)) ∧
    (q.message_stats = none → publishRate q = 0 ∧ consumeRate q = 0) ∧
    (¬ ∃ a ∈ (check_queue_single cfg now m
        { q with message_stats := none }).2, a.rule = .processingHalt) ∧
    ((∃ a ∈ (check_queue_single cfg now m { q with message_stats := none }).2,
        a.rule = .queueBackup) ↔
      (∃ a ∈ (check_queue_single cfg now m q).2, a.rule = .queueBackup)) ∧
    ((∃ a ∈ (check_queue_single cfg now m { q with message_stats := none }).2,
        a.rule = .unacked) ↔
      (∃ a ∈ (check_queue_single cfg now m q).2, a.rule = .unacked)) ∧
    ((∃ a ∈ (check_queue_single cfg now m { q with message_stats := none }).2,
        a.rule = .noConsumers) ↔
      (∃ a ∈ (check_queue_single cfg now m q).2, a.rule = .noConsumers)) := by
  refine ⟨?_, ?_, ?_, ?_, ?_, ?_⟩
  · rw [queue_halt_fires_iff, ssa_fst_of_none _ _ _ now hfresh]
    simp
  · intro h
    constructor
    · unfold publishRate
      rw [h]
    · unfold consumeRate
      rw [h]
  · rw [queue_halt_fires_iff]
    rintro ⟨⟨-, -, hp⟩, -⟩
    exact lt_irrefl 0 hp
  · rw [queue_backup_fires_iff, queue_backup_fires_iff]
  · rw [queue_unacked_fires_iff, queue_unacked_fires_iff]
  · rw [queue_no_consumers_fires_iff, queue_no_consumers_fires_iff]

/-- Witness for `processing_halt_spec`: a queue with 500 messages, publish
rate 1 and consume rate 0 fires the halt rule from a fresh state. -/
theorem processing_halt_spec_witness :
    (∃ a ∈ (check_queue_single cfgEx 0 [] qHaltEx).2,
        a.rule = .processingHalt) ↔
      (qHaltEx.messages.getD 0 > cfgEx.thresholds.processing_halt_threshold ∧
        consumeRate qHaltEx = 0 ∧ publishRate qHaltEx > 0) :=
  (processing_halt_spec cfgEx 0 [] qHaltEx (by decide)).1

/-- C7: an exception raised by the cycle body is caught at the cycle
boundary: `run_health_check` returns normally (it is total), producing
exactly one monitoring-error notification of severity `"critical"`, and the
monitoring loop still runs every subsequent cycle — the failed cycle
contributes its one batch and the loop's output has one batch per cycle. -/
theorem monitoring_error_boundary_spec (c : CycleBody) (cs : List CycleBody)
    (m m' : LastAlerts) (e : String)
    (h : c m = (m', Except.error e)) :
    run_health_check c m =
      (m', [("MONITORING ERROR: Health check failed: " ++ e, "critical")]) ∧
    (run_health_check c m).2.length = 1 ∧
    (∀ p ∈ (run_health_check c m).2, p.2 = "critical") ∧
    (start_monitoring (c :: cs) m).2.length = cs.length + 1 := by
  have h1 : run_health_check c m =
      (m', [("MONITORING ERROR: Health check failed: " ++ e, "critical")]) := by
    unfold run_health_check
    rw [h]
  refine ⟨h1, by rw [h1]; rfl, ?_, ?_⟩
  · intro p hp
    rw [h1] at hp
    simp only [List.mem_singleton] at hp
    rw [hp]
  · simpa using start_monitoring_length (c :: cs) m

/-- Witness for `monitoring_error_boundary_spec`: a cycle body that raises
`"boom"` yields the single critical monitoring-error notification. -/
theorem monitoring_error_boundary_spec_witness :
    run_health_check (fun mm => (mm, Except.error "boom")) [] =
      ([], [("MONITORING ERROR: Health check failed: " ++ "boom",
        "critical")]) :=
  (monitoring_error_boundary_spec (fun mm => (mm, Except.error "boom"))
    [] [] [] "boom" rfl).1

/-- C8: with a fresh key and a non-negative threshold, the high-memory rule
fires exactly when the memory limit is positive and
`mem_used / mem_limit * 100` exceeds the threshold; every memory alert's
severity is `"critical"` when that percentage exceeds 90 and `"warning"`
otherwise; and a zero memory limit yields percentage 0 and no firing rather
than a division error (division is total in the embedding). -/
theorem memory_rule_spec (cfg : MonitorConfig) (now : Time) (m : LastAlerts)
    (node : NodeData)
    (hfresh : lookupA m (alertKeyOf .memory (node.name.getD "unknown")) = none)
    (hthr : 0 ≤ cfg.thresholds.max_memory_usage_percent) :
    ((∃ a ∈ (check_node_single cfg now m node).2, a.rule = .memory) ↔
      (node.mem_limit.getD 1 > 0 ∧
        ((node.mem_used.getD 0 : ℚ) / (node.mem_limit.getD 1 : ℚ)) * 100 >
          (cfg.thresholds.max_memory_usage_percent : ℚ))) ∧
    (∀ a ∈ (check_node_single cfg now m node).2, a.rule = .memory →
      a.severity = (if mem_percent node > 90 then "critical" else "warning")) ∧
    (node.mem_limit = some 0 →
      mem_percent node = 0 ∧
      ¬ ∃ a ∈ (check_node_single cfg now m node).2, a.rule = .memory) := by
  have hiff := node_memory_fires_iff cfg now m node
  rw [ssa_fst_of_none _ _ _ now hfresh] at hiff
  simp only [and_true] at hiff
  have hthrQ : ¬ ((0:ℚ) > (cfg.thresholds.max_memory_usage_percent : ℚ)) := by
    rw [not_lt]
    exact_mod_cast hthr
  refine ⟨?_, fun a ha hr => node_memory_severity cfg now m node a ha hr, ?_⟩
  · rw [hiff]
    unfold mem_percent
    by_cases hl : node.mem_limit.getD 1 > 0
    · simp [hl]
    · simp [hl, hthrQ]
  · intro h0
    have hmp : mem_percent node = 0 := by
      unfold mem_percent
      rw [h0]
      simp
    refine ⟨hmp, ?_⟩
    rw [hiff, hmp]
    exact hthrQ

/-- Witness for `memory_rule_spec`: a node at 95/100 memory fires the
high-memory rule under the default 80 percent threshold. -/
theorem memory_rule_spec_witness :
    (∃ a ∈ (check_node_single cfgEx 0 [] nodeMemEx).2, a.rule = .memory) ↔
      (nodeMemEx.mem_limit.getD 1 > 0 ∧
        ((nodeMemEx.mem_used.getD 0 : ℚ) / (nodeMemEx.mem_limit.getD 1 : ℚ)) *
            100 >
          (cfgEx.thresholds.max_memory_usage_percent : ℚ)) :=
  (memory_rule_spec cfgEx 0 [] nodeMemEx (by decide) (by decide)).1

/-- C9: for a queue in the override list, all four queue rules — backup,
unacknowledged backlog, missing consumers and processing halt — gate on the
override cooldown, while only the backup rule uses the override threshold:
with records at `t0` for all four keys, each rule fires iff its own condition
holds (the backup condition against the override threshold, the other three
against their global thresholds) and `long_job_cooldown` has elapsed. -/
theorem override_cooldown_all_rules_spec (cfg : MonitorConfig) (qname : String)
    (q : QueueData) (m : LastAlerts) (now t0 : Time)
    (hmem : qname ∈ cfg.long_job_queues)
    (hn : q.name = some qname)
    (hb : lookupA m (alertKeyOf .queueBackup qname) = some t0)
    (hu : lookupA m (alertKeyOf .unacked qname) = some t0)
    (hc : lookupA m (alertKeyOf .noConsumers qname) = some t0)
    (hh : lookupA m (alertKeyOf .processingHalt qname) = some t0) :
    ((∃ a ∈ (check_queue_single cfg now m q).2, a.rule = .queueBackup) ↔
      (q.messages.getD 0 > cfg.long_job_threshold ∧
        cfg.long_job_cooldown ≤ now - t0)) ∧
    ((∃ a ∈ (check_queue_single cfg now m q).2, a.rule = .unacked) ↔
      (q.messages_unacknowledged.getD 0 >
          cfg.thresholds.max_unacknowledged_messages ∧
        cfg.long_job_cooldown ≤ now - t0)) ∧
    ((∃ a ∈ (check_queue_single cfg now m q).2, a.rule = .noConsumers) ↔
      ((q.messages.getD 0 > 0 ∧
          q.consumers.getD 0 < cfg.thresholds.min_consumers_per_queue) ∧
        cfg.long_job_cooldown ≤ now - t0)) ∧
    ((∃ a ∈ (check_queue_single cfg now m q).2, a.rule = .processingHalt) ↔
      ((q.messages.getD 0 > cfg.thresholds.processing_halt_threshold ∧
          consumeRate q = 0 ∧ publishRate q > 0) ∧
        cfg.long_job_cooldown ≤ now - t0)) := by
  have hgq : q.name.getD "unknown" = qname := by rw [hn]; rfl
  have hcfg : get_queue_config cfg qname =
      (cfg.long_job_threshold, cfg.long_job_cooldown) := by
    simp [get_queue_config, hmem]
  refine ⟨?_, ?_, ?_, ?_⟩
  · rw [queue_backup_fires_iff, hgq, hcfg,
      ssa_fst_of_some m _ _ now t0 hb]
  · rw [queue_unacked_fires_iff, hgq, hcfg,
      ssa_fst_of_some m _ _ now t0 hu]
  · rw [queue_no_consumers_fires_iff, hgq, hcfg,
      ssa_fst_of_some m _ _ now t0 hc]
  · rw [queue_halt_fires_iff, hgq, hcfg,
      ssa_fst_of_some m _ _ now t0 hh]

/-- Witness for `override_cooldown_all_rules_spec`: the overridden queue
`"jobs-long"` with records at time 0 for all four keys, evaluated at time 1. -/
theorem override_cooldown_all_rules_spec_witness :
    (∃ a ∈ (check_queue_single cfgOver 1
        [("queue_backup_jobs-long", 0), ("unacked_jobs-long", 0),
         ("no_consumers_jobs-long", 0), ("processing_halt_jobs-long", 0)]
        qLongEx).2, a.rule = .unacked) ↔
      (qLongEx.messages_unacknowledged.getD 0 >
          cfgOver.thresholds.max_unacknowledged_messages ∧
        cfgOver.long_job_cooldown ≤ 1 - 0) :=
  (override_cooldown_all_rules_spec cfgOver "jobs-long" qLongEx
    [("queue_backup_jobs-long", 0), ("unacked_jobs-long", 0),
     ("no_consumers_jobs-long", 0), ("processing_halt_jobs-long", 0)]
    1 0 (by decide) rfl (by decide) (by decide) (by decide) (by decide)).2.1

/-- C10: a node snapshot with no `mem_limit` field gets the substitute limit
1, so its memory percentage is `mem_used * 100`; with a fresh key, a
threshold below 100 (the default is 80) and `mem_used` at least 1, the
high-memory rule fires — a missing memory limit does not behave as
"condition not met". -/
theorem missing_mem_limit_spec (cfg : MonitorConfig) (now : Time)
    (m : LastAlerts) (node : NodeData)
    (hml : node.mem_limit = none)
    (hfresh : lookupA m (alertKeyOf .memory (node.name.getD "unknown")) = none)
    (hthr : cfg.thresholds.max_memory_usage_percent < 100)
    (hused : 1 ≤ node.mem_used.getD 0) :
    mem_percent node = (node.mem_used.getD 0 : ℚ) * 100 ∧
    (∃ a ∈ (check_node_single cfg now m node).2, a.rule = .memory) := by
  have hm : mem_percent node = (node.mem_used.getD 0 : ℚ) * 100 := by
    unfold mem_percent
    rw [hml]
    norm_num
  refine ⟨hm, ?_⟩
  have hiff := node_memory_fires_iff cfg now m node
  rw [ssa_fst_of_none _ _ _ now hfresh] at hiff
  simp only [and_true] at hiff
  rw [hiff, hm]
  have h1 : (1:ℚ) ≤ (node.mem_used.getD 0 : ℚ) := by exact_mod_cast hused
  have h2 : (cfg.thresholds.max_memory_usage_percent : ℚ) < 100 := by
    exact_mod_cast hthr
  nlinarith

/-- Witness for `missing_mem_limit_spec`: a node with `mem_used = 5` and no
`mem_limit` field has percentage 500 and fires the rule under `cfgEx`. -/
theorem missing_mem_limit_spec_witness :
    mem_percent nodeNoLimitEx = ((nodeNoLimitEx.mem_used.getD 0 : ℚ) * 100) ∧
    (∃ a ∈ (check_node_single cfgEx 0 [] nodeNoLimitEx).2,
      a.rule = .memory) :=
  missing_mem_limit_spec cfgEx 0 [] nodeNoLimitEx rfl (by decide) (by decide)
    (by decide)
